import Mathlib

/-!
Verification of the tilt optimization engine: the solar geometry model
(`solar_elevation_angle`, `effective_irradiance`), the efficiency-loss oracle
(`predict_loss`), the exhaustive tilt sweep (`find_best_tilt`) and the result
assembler (`get_optimization_result`), shallowly embedded over the reals.
Python floats become real numbers; the opaque regression model becomes an
abstract scoring function that may be absent or fail; Python's `round(x, 2)`
(banker's rounding to two decimals) becomes `round2`.
-/

namespace TiltOptimizer

/-- Python's built-in `round` to the nearest integer: nearest, ties to even. -/
noncomputable def pyRoundInt (x : ℝ) : ℤ :=
  if x - ⌊x⌋ = 1/2 then (if Even ⌊x⌋ then ⌊x⌋ else ⌊x⌋ + 1) else round x

/-- Python's `round(x, 2)`: round to two decimal places. -/
noncomputable def round2 (x : ℝ) : ℝ :=
  (pyRoundInt (100 * x) : ℝ) / 100

/-- The loaded regression model `rf_model`: `none` when the artifact could not
be loaded; otherwise a scoring function from the feature vector that either
fails (an exception during `predict`) or produces a raw loss value. -/
def RfModel : Type := Option (List ℝ → Except Unit ℝ)

/-- `predict_loss` (tilt_optimizer.py lines 25-49): fallback `0.15` when the
model is not loaded or prediction raises, otherwise the raw model output
clamped to `[0, 1]` via `max(0, min(loss, 1))`. -/
noncomputable def predict_loss (rf_model : RfModel) (feature_vector : List ℝ) : ℝ :=
  match rf_model with
  | none => 0.15
  | some model =>
    match model feature_vector with
    | Except.error _ => 0.15
    | Except.ok loss => max 0 (min loss 1)

/-- `solar_elevation_angle` (solar_geometry.py lines 9-22, duplicated in
tilt_optimizer.py lines 52-58): `max_elevation = 90 - |latitude|`,
`elevation = max_elevation * sin(π * (hour - 6) / 12)`, floored at 0. -/
noncomputable def solar_elevation_angle (latitude hour : ℝ) : ℝ :=
  let max_elevation := 90 - |latitude|
  let elevation := max_elevation * Real.sin (Real.pi * (hour - 6) / 12)
  max elevation 0

/-- `effective_irradiance` (solar_geometry.py lines 25-38, duplicated in
tilt_optimizer.py lines 61-66): `max(ghi * cos(radians(|tilt - elev|)), 0)`,
where `np.radians(d) = d * π / 180`. -/
noncomputable def effective_irradiance (ghi tilt solar_elevation : ℝ) : ℝ :=
  let angle_diff := |tilt - solar_elevation| * (Real.pi / 180)
  max (ghi * Real.cos angle_diff) 0

/-- One entry of `all_results`: `{'tilt': tilt,
'effective_irradiance': round(eff_irr, 2), 'net_energy': round(net_energy, 2)}`. -/
structure Candidate where
  tilt : ℤ
  effective_irradiance : ℝ
  net_energy : ℝ

/-- The loop state of `find_best_tilt`: `best_tilt`, `best_energy`,
`all_results`. -/
structure SweepState where
  best_tilt : Option ℤ
  best_energy : ℝ
  all_results : List Candidate

/-- The loop body of `find_best_tilt` (lines 99-111): compute the effective
irradiance and net energy at this tilt, append the rounded candidate, and
update the running best under the strict `net_energy > best_energy` test. -/
noncomputable def sweepStep (ghi solar_elev loss : ℝ) (s : SweepState) (tilt : ℤ) :
    SweepState :=
  let eff_irr := effective_irradiance ghi tilt solar_elev
  let net_energy := eff_irr * (1 - loss)
  ⟨if net_energy > s.best_energy then some tilt else s.best_tilt,
   if net_energy > s.best_energy then net_energy else s.best_energy,
   s.all_results ++ [⟨tilt, round2 eff_irr, round2 net_energy⟩]⟩

/-- Python's `range(tilt_min, tilt_max + 1)` as a list of integers. -/
def tiltRange (tilt_min tilt_max : ℤ) : List ℤ :=
  (List.range (tilt_max + 1 - tilt_min).toNat).map (fun (i : ℕ) => tilt_min + (i : ℤ))

/-- The return value of `find_best_tilt`:
`(best_tilt, best_energy, solar_elev, loss, all_results)`. -/
structure SweepResult where
  best_tilt : Option ℤ
  best_energy : ℝ
  solar_elev : ℝ
  loss : ℝ
  all_results : List Candidate

/-- `find_best_tilt` (tilt_optimizer.py lines 69-113): compute the solar
elevation once, the loss once (capped at 0.8), then sweep the integer tilts
from `tilt_min` to `tilt_max` inclusive starting from
`best_tilt = None, best_energy = -1, all_results = []`. -/
noncomputable def find_best_tilt (rf_model : RfModel) (ghi latitude hour : ℝ)
    (feature_vector : List ℝ) (tilt_min tilt_max : ℤ) : SweepResult :=
  let solar_elev := solar_elevation_angle latitude hour
  let loss := min (predict_loss rf_model feature_vector) 0.8
  let final := (tiltRange tilt_min tilt_max).foldl (sweepStep ghi solar_elev loss)
    ⟨none, -1, []⟩
  ⟨final.best_tilt, final.best_energy, solar_elev, loss, final.all_results⟩

/-- The exact (pre-rounding) net energy evaluated by the sweep loop at a given
tilt: `effective_irradiance(ghi, tilt, solar_elev) * (1 - loss)` with the
capped loss, exactly as in lines 100-101. -/
noncomputable def net_energy_at (rf_model : RfModel) (ghi latitude hour : ℝ)
    (feature_vector : List ℝ) (tilt : ℤ) : ℝ :=
  effective_irradiance ghi tilt (solar_elevation_angle latitude hour) *
    (1 - min (predict_loss rf_model feature_vector) 0.8)

/-- `default_energy` lookup (lines 153-156): the `net_energy` of the first
candidate whose tilt equals `default_tilt`, else `best_energy * 0.9`. -/
def defaultEnergy (all_results : List Candidate) (default_tilt : ℤ)
    (best_energy : ℝ) : ℝ :=
  match all_results.find? (fun r => r.tilt == default_tilt) with
  | some r => r.net_energy
  | none => best_energy * 0.9

/-- `improvement` (line 158): `(best_energy - default_energy) / default_energy
* 100` when `default_energy > 0`, else 0. -/
noncomputable def improvementOf (best_energy default_energy : ℝ) : ℝ :=
  if default_energy > 0 then (best_energy - default_energy) / default_energy * 100
  else 0

/-- Python's `all_results[::5]`: every 5th element, starting at the first. -/
def everyFifth {α : Type} : List α → List α
  | [] => []
  | x :: xs => x :: everyFifth (List.drop 4 xs)
  termination_by l => l.length
  decreasing_by simp [List.length_drop]; omega

/-- The `conditions` sub-record of the optimization result. -/
structure Conditions where
  ghi : ℝ
  latitude : ℝ
  hour : ℝ
  temperature : ℝ
  humidity : ℝ
  wind_speed : ℝ

/-- The record returned by `get_optimization_result` (lines 160-178). -/
structure OptimizationResult where
  optimal_tilt : Option ℤ
  estimated_energy : ℝ
  solar_elevation : ℝ
  efficiency_loss : ℝ
  efficiency_retained : ℝ
  default_tilt : ℤ
  default_energy : ℝ
  improvement_percent : ℝ
  conditions : Conditions
  tilt_curve : List Candidate

/-- `get_optimization_result` (tilt_optimizer.py lines 116-178): build the
feature vector, delegate to `find_best_tilt`, compute the default-tilt
baseline `int(abs(latitude))` (truncation of the absolute latitude), look up
its energy with the `best_energy * 0.9` fallback, compute the guarded
improvement percentage, and assemble the rounded result with the
down-sampled `tilt_curve = all_results[::5]`. -/
noncomputable def get_optimization_result (rf_model : RfModel)
    (ghi latitude hour temperature humidity wind_speed voltage current
      days_since_installation : ℝ) (tilt_min tilt_max : ℤ) : OptimizationResult :=
  let feature_vector := [temperature, humidity, wind_speed, ghi, voltage, current,
    days_since_installation]
  let r := find_best_tilt rf_model ghi latitude hour feature_vector tilt_min tilt_max
  let default_tilt := ⌊|latitude|⌋
  let default_energy := defaultEnergy r.all_results default_tilt r.best_energy
  let improvement := improvementOf r.best_energy default_energy
  ⟨r.best_tilt, round2 r.best_energy, round2 r.solar_elev, round2 (r.loss * 100),
   round2 ((1 - r.loss) * 100), default_tilt, round2 default_energy,
   round2 improvement, ⟨ghi, latitude, hour, temperature, humidity, wind_speed⟩,
   everyFifth r.all_results⟩

/-! ### Infrastructure lemmas -/

lemma tiltRange_eq_nil (a b : ℤ) (h : b < a) : tiltRange a b = [] := by
  unfold tiltRange
  have h0 : (b + 1 - a).toNat = 0 := by omega
  rw [h0]
  rfl

lemma mem_tiltRange {a b t : ℤ} : t ∈ tiltRange a b ↔ a ≤ t ∧ t ≤ b := by
  unfold tiltRange
  simp only [List.mem_map, List.mem_range]
  constructor
  · rintro ⟨i, hi, rfl⟩
    omega
  · rintro ⟨h1, h2⟩
    exact ⟨(t - a).toNat, by omega, by omega⟩

lemma tiltRange_length (a b : ℤ) : (tiltRange a b).length = (b + 1 - a).toNat := by
  unfold tiltRange
  simp

lemma tiltRange_self (a : ℤ) : tiltRange a a = [a] := by
  unfold tiltRange
  have h1 : (a + 1 - a).toNat = 1 := by omega
  have h2 : List.range 1 = [0] := rfl
  rw [h1, h2]
  simp

lemma tiltRange_succ_right (a b : ℤ) (h : a ≤ b + 1) :
    tiltRange a (b + 1) = tiltRange a b ++ [b + 1] := by
  unfold tiltRange
  have h1 : (b + 1 + 1 - a).toNat = (b + 1 - a).toNat + 1 := by omega
  rw [h1, List.range_succ, List.map_append]
  simp only [List.map_cons, List.map_nil, List.append_cancel_left_eq,
    List.cons.injEq, and_true]
  omega

lemma effective_irradiance_nonneg (ghi tilt solar_elevation : ℝ) :
    0 ≤ effective_irradiance ghi tilt solar_elevation := by
  unfold effective_irradiance
  exact le_max_right _ _

lemma net_nonneg (g se lo : ℝ) (hlo : lo ≤ 1) (t : ℤ) :
    0 ≤ effective_irradiance g t se * (1 - lo) :=
  mul_nonneg (effective_irradiance_nonneg _ _ _) (by linarith)

lemma foldl_all_results (g se lo : ℝ) (l : List ℤ) (s : SweepState) :
    (l.foldl (sweepStep g se lo) s).all_results =
      s.all_results ++ l.map (fun t =>
        ⟨t, round2 (effective_irradiance g t se),
          round2 (effective_irradiance g t se * (1 - lo))⟩) := by
  induction l generalizing s with
  | nil => simp
  | cons x xs ih =>
    simp only [List.foldl_cons, List.map_cons, ih, sweepStep]
    simp

/-- The specification of the sweep loop: after folding `sweepStep` over
`tiltRange a b` from the initial state, `best_tilt` is `some t` for the
least maximizer `t` of the exact net energy, and `best_energy` is its value. -/
lemma sweep_best_spec (g se lo : ℝ) (hlo : lo ≤ 1) (a : ℤ) :
    ∀ b : ℤ, a ≤ b → ∃ t : ℤ, a ≤ t ∧ t ≤ b ∧
      ((tiltRange a b).foldl (sweepStep g se lo) ⟨none, -1, []⟩).best_tilt = some t ∧
      ((tiltRange a b).foldl (sweepStep g se lo) ⟨none, -1, []⟩).best_energy =
        effective_irradiance g t se * (1 - lo) ∧
      (∀ u : ℤ, a ≤ u → u ≤ b →
        effective_irradiance g u se * (1 - lo) ≤
          effective_irradiance g t se * (1 - lo)) ∧
      (∀ u : ℤ, a ≤ u → u < t →
        effective_irradiance g u se * (1 - lo) <
          effective_irradiance g t se * (1 - lo)) := by
  refine Int.le_induction ?_ ?_
  · refine ⟨a, le_refl a, le_refl a, ?_, ?_, ?_, ?_⟩
    · rw [tiltRange_self]
      simp only [List.foldl_cons, List.foldl_nil, sweepStep]
      split

      · rfl
      · next hcon =>
        exfalso
        have h0 := net_nonneg g se lo hlo a
        simp only [gt_iff_lt, not_lt] at hcon
        linarith
    · rw [tiltRange_self]
      simp only [List.foldl_cons, List.foldl_nil, sweepStep]
      split
      · rfl
      · next hcon =>
        exfalso
        have h0 := net_nonneg g se lo hlo a
        simp only [gt_iff_lt, not_lt] at hcon
        linarith
    · intro u hu1 hu2
      have hua : u = a := le_antisymm hu2 hu1
      rw [hua]
    · intro u hu1 hu2
      omega
  · intro b hab ih
    obtain ⟨t, hta, htb, hbt, hbe, hmax, hfirst⟩ := ih
    rw [tiltRange_succ_right a b (by omega), List.foldl_append]
    set s := (tiltRange a b).foldl (sweepStep g se lo) ⟨none, -1, []⟩ with hs
    simp only [List.foldl_cons, List.foldl_nil]
    by_cases h : effective_irradiance g (b + 1 : ℤ) se * (1 - lo) >
        effective_irradiance g t se * (1 - lo)
    · refine ⟨b + 1, by omega, le_refl _, ?_, ?_, ?_, ?_⟩
      · simp only [sweepStep]
        split
        · rfl
        · next hcon =>
          exfalso
          rw [hbe] at hcon
          exact hcon h
      · simp only [sweepStep]
        split
        · rfl
        · next hcon =>
          exfalso
          rw [hbe] at hcon
          exact hcon h
      · intro u hu1 hu2
        rcases lt_or_eq_of_le hu2 with hu3 | hu3
        · exact le_of_lt (lt_of_le_of_lt (hmax u hu1 (by omega)) h)
        · rw [hu3]
      · intro u hu1 hu2
        exact lt_of_le_of_lt (hmax u hu1 (by omega)) h
    · refine ⟨t, hta, by omega, ?_, ?_, ?_, hfirst⟩
      · simp only [sweepStep]
        split
        · next hcon =>
          exfalso
          rw [hbe] at hcon
          exact h hcon
        · exact hbt
      · simp only [sweepStep]
        split
        · next hcon =>
          exfalso
          rw [hbe] at hcon
          exact h hcon
        · exact hbe
      · intro u hu1 hu2
        rcases lt_or_eq_of_le hu2 with hu3 | hu3
        · exact hmax u hu1 (by omega)
        · rw [hu3]
          exact le_of_not_lt h

lemma solar_elevation_angle_def (lat hr : ℝ) :
    solar_elevation_angle lat hr =
      max ((90 - |lat|) * Real.sin (Real.pi * (hr - 6) / 12)) 0 := rfl

lemma effective_irradiance_def (ghi tilt elev : ℝ) :
    effective_irradiance ghi tilt elev =
      max (ghi * Real.cos (|tilt - elev| * (Real.pi / 180))) 0 := rfl

lemma solar_elevation_angle_nonneg (lat hr : ℝ) : 0 ≤ solar_elevation_angle lat hr := by
  rw [solar_elevation_angle_def]
  exact le_max_right _ _

lemma solar_elevation_angle_le (lat hr : ℝ) (h : |lat| ≤ 90) :
    solar_elevation_angle lat hr ≤ 90 - |lat| := by
  rw [solar_elevation_angle_def]
  exact max_le (mul_le_of_le_one_right (by linarith) (Real.sin_le_one _)) (by linarith)

lemma solar_elevation_angle_at_noon (lat : ℝ) (h : |lat| ≤ 90) :
    solar_elevation_angle lat 12 = 90 - |lat| := by
  rw [solar_elevation_angle_def]
  have harg : Real.pi * ((12:ℝ) - 6) / 12 = Real.pi / 2 := by ring
  rw [harg, Real.sin_pi_div_two, mul_one]
  exact max_eq_left (by linarith)

lemma solar_elevation_angle_at_six (lat : ℝ) : solar_elevation_angle lat 6 = 0 := by
  rw [solar_elevation_angle_def]
  have harg : Real.pi * ((6:ℝ) - 6) / 12 = 0 := by ring
  rw [harg, Real.sin_zero, mul_zero]
  exact max_self 0

lemma predict_loss_none (fv : List ℝ) : predict_loss none fv = 0.15 := rfl

lemma predict_loss_error (model : List ℝ → Except Unit ℝ) (fv : List ℝ) (e : Unit)
    (hm : model fv = Except.error e) : predict_loss (some model) fv = 0.15 := by
  simp [predict_loss, hm]

lemma predict_loss_ok (model : List ℝ → Except Unit ℝ) (fv : List ℝ) (x : ℝ)
    (hm : model fv = Except.ok x) :
    predict_loss (some model) fv = max 0 (min x 1) := by
  simp [predict_loss, hm]

lemma predict_loss_nonneg (m : RfModel) (fv : List ℝ) : 0 ≤ predict_loss m fv := by
  cases m with
  | none => rw [predict_loss_none]; norm_num
  | some model =>
    cases hm : model fv with
    | error e => rw [predict_loss_error model fv e hm]; norm_num
    | ok loss => rw [predict_loss_ok model fv loss hm]; exact le_max_left _ _

lemma find_best_tilt_loss (m : RfModel) (g lat hr : ℝ) (fv : List ℝ) (a b : ℤ) :
    (find_best_tilt m g lat hr fv a b).loss = min (predict_loss m fv) 0.8 := rfl

lemma find_best_tilt_solar_elev (m : RfModel) (g lat hr : ℝ) (fv : List ℝ) (a b : ℤ) :
    (find_best_tilt m g lat hr fv a b).solar_elev = solar_elevation_angle lat hr := rfl

lemma find_best_tilt_best_tilt (m : RfModel) (g lat hr : ℝ) (fv : List ℝ) (a b : ℤ) :
    (find_best_tilt m g lat hr fv a b).best_tilt =
      ((tiltRange a b).foldl
        (sweepStep g (solar_elevation_angle lat hr) (min (predict_loss m fv) 0.8))
        ⟨none, -1, []⟩).best_tilt := rfl

lemma find_best_tilt_best_energy (m : RfModel) (g lat hr : ℝ) (fv : List ℝ) (a b : ℤ) :
    (find_best_tilt m g lat hr fv a b).best_energy =
      ((tiltRange a b).foldl
        (sweepStep g (solar_elevation_angle lat hr) (min (predict_loss m fv) 0.8))
        ⟨none, -1, []⟩).best_energy := rfl

lemma find_best_tilt_all_results (m : RfModel) (g lat hr : ℝ) (fv : List ℝ) (a b : ℤ) :
    (find_best_tilt m g lat hr fv a b).all_results =
      (tiltRange a b).map (fun t =>
        ⟨t, round2 (effective_irradiance g t (solar_elevation_angle lat hr)),
          round2 (net_energy_at m g lat hr fv t)⟩) := by
  have h : (find_best_tilt m g lat hr fv a b).all_results =
      ((tiltRange a b).foldl
        (sweepStep g (solar_elevation_angle lat hr) (min (predict_loss m fv) 0.8))
        ⟨none, -1, []⟩).all_results := rfl
  rw [h, foldl_all_results]
  simp only [List.nil_append]
  rfl

lemma get_optimization_result_optimal_tilt (m : RfModel)
    (g lat hr te hu ws vo cu dsi : ℝ) (a b : ℤ) :
    (get_optimization_result m g lat hr te hu ws vo cu dsi a b).optimal_tilt =
      (find_best_tilt m g lat hr [te, hu, ws, g, vo, cu, dsi] a b).best_tilt := rfl

lemma get_optimization_result_estimated_energy (m : RfModel)
    (g lat hr te hu ws vo cu dsi : ℝ) (a b : ℤ) :
    (get_optimization_result m g lat hr te hu ws vo cu dsi a b).estimated_energy =
      round2 (find_best_tilt m g lat hr [te, hu, ws, g, vo, cu, dsi] a b).best_energy :=
  rfl

lemma get_optimization_result_efficiency_loss (m : RfModel)
    (g lat hr te hu ws vo cu dsi : ℝ) (a b : ℤ) :
    (get_optimization_result m g lat hr te hu ws vo cu dsi a b).efficiency_loss =
      round2 ((find_best_tilt m g lat hr [te, hu, ws, g, vo, cu, dsi] a b).loss * 100) :=
  rfl

lemma get_optimization_result_default_tilt (m : RfModel)
    (g lat hr te hu ws vo cu dsi : ℝ) (a b : ℤ) :
    (get_optimization_result m g lat hr te hu ws vo cu dsi a b).default_tilt =
      ⌊|lat|⌋ := rfl

lemma get_optimization_result_tilt_curve (m : RfModel)
    (g lat hr te hu ws vo cu dsi : ℝ) (a b : ℤ) :
    (get_optimization_result m g lat hr te hu ws vo cu dsi a b).tilt_curve =
      everyFifth (find_best_tilt m g lat hr [te, hu, ws, g, vo, cu, dsi] a b).all_results :=
  rfl

lemma everyFifth_length {α : Type} (l : List α) :
    (everyFifth l).length = (l.length + 4) / 5 := by
  induction l using everyFifth.induct with
  | case1 => simp [everyFifth]
  | case2 x xs ih =>
    simp only [everyFifth, List.length_cons, ih, List.length_drop]
    omega

/-! ### Claim theorems -/

/-- C4: the loss value used by the sweep (the `loss` returned by
`find_best_tilt` and fed into every `net_energy = eff_irr * (1 - loss)`)
always lies in `[0, 0.8]`, for every possible oracle, including raw outputs
above 0.8. -/
theorem C4_sweep_loss_in_range (m : RfModel) (g lat hr : ℝ) (fv : List ℝ)
    (a b : ℤ) :
    0 ≤ (find_best_tilt m g lat hr fv a b).loss ∧
      (find_best_tilt m g lat hr fv a b).loss ≤ 0.8 := by
  rw [find_best_tilt_loss]
  exact ⟨le_min (predict_loss_nonneg m fv) (by norm_num), min_le_right _ _⟩

/-- C9: for every non-negative `ghi` and all tilt and solar elevation,
`effective_irradiance` is non-negative, and it equals `ghi` exactly when the
tilt equals the solar elevation. -/
theorem C9_effective_irradiance_spec (ghi tilt elev : ℝ) (h : 0 ≤ ghi) :
    0 ≤ effective_irradiance ghi tilt elev ∧
      (tilt = elev → effective_irradiance ghi tilt elev = ghi) := by
  refine ⟨effective_irradiance_nonneg _ _ _, ?_⟩
  intro he
  subst he
  rw [effective_irradiance_def, sub_self, abs_zero, zero_mul, Real.cos_zero,
    mul_one]
  exact max_eq_left h

/-- Witness for C9 at `ghi = 800`, `tilt = elev = 30`. -/
theorem C9_witness :
    0 ≤ effective_irradiance 800 30 30 ∧
      ((30:ℝ) = 30 → effective_irradiance 800 30 30 = 800) :=
  C9_effective_irradiance_spec 800 30 30 (by norm_num)

/-- C5 counterexample: at latitude 180 (where `90 - |latitude|` is negative),
hour 0, the elevation evaluates to 90, violating the claimed upper bound
`90 - |latitude| = -90`; so the claim fails for some latitude. -/
theorem C5_counterexample :
    solar_elevation_angle 180 0 = 90 ∧
      ¬ solar_elevation_angle 180 0 ≤ 90 - |(180:ℝ)| := by
  have hv : solar_elevation_angle 180 0 = 90 := by
    rw [solar_elevation_angle_def]
    have harg : Real.pi * ((0:ℝ) - 6) / 12 = -(Real.pi / 2) := by ring
    rw [harg, Real.sin_neg, Real.sin_pi_div_two,
      abs_of_nonneg (by norm_num : (0:ℝ) ≤ 180)]
    norm_num
  refine ⟨hv, ?_⟩
  rw [hv, abs_of_nonneg (by norm_num : (0:ℝ) ≤ 180)]
  norm_num

/-- C5 amended: for every latitude with `|latitude| ≤ 90` and every hour,
`0 ≤ solar_elevation_angle latitude hour ≤ 90 - |latitude|`. -/
theorem C5_amended (latitude hour : ℝ) (h : |latitude| ≤ 90) :
    0 ≤ solar_elevation_angle latitude hour ∧
      solar_elevation_angle latitude hour ≤ 90 - |latitude| :=
  ⟨solar_elevation_angle_nonneg _ _, solar_elevation_angle_le _ _ h⟩

/-- Witness for C5 at latitude 45, hour 9. -/
theorem C5_witness :
    0 ≤ solar_elevation_angle 45 9 ∧
      solar_elevation_angle 45 9 ≤ 90 - |(45:ℝ)| :=
  C5_amended 45 9 (by rw [abs_of_nonneg (by norm_num : (0:ℝ) ≤ 45)]; norm_num)

/-- C2 counterexample: `solar_elevation_angle 30 18 = 0`, not 60, and hour 18
does not maximize the elevation (hour 12 gives 60 > 0); the sine argument is
`π/2` at hour 12, not 18. -/
theorem C2_counterexample :
    solar_elevation_angle 30 18 = 0 ∧ solar_elevation_angle 30 18 ≠ 60 ∧
      solar_elevation_angle 30 12 = 60 ∧
      ¬ solar_elevation_angle 30 12 ≤ solar_elevation_angle 30 18 := by
  have h18 : solar_elevation_angle 30 18 = 0 := by
    rw [solar_elevation_angle_def]
    have harg : Real.pi * ((18:ℝ) - 6) / 12 = Real.pi := by ring
    rw [harg, Real.sin_pi, mul_zero]
    exact max_self 0
  have h12 : solar_elevation_angle 30 12 = 60 := by
    rw [solar_elevation_angle_at_noon 30
      (by rw [abs_of_nonneg (by norm_num : (0:ℝ) ≤ 30)]; norm_num),
      abs_of_nonneg (by norm_num : (0:ℝ) ≤ 30)]
    norm_num
  exact ⟨h18, by rw [h18]; norm_num, h12, by rw [h18, h12]; norm_num⟩

/-- C2 amended: for every latitude with `|latitude| ≤ 90`,
`solar_elevation_angle latitude 6 = 0`, the elevation is maximized at
hour 12 (not 18), and `solar_elevation_angle 30 12 = 60`. -/
theorem C2_amended (latitude hour : ℝ) (h : |latitude| ≤ 90) :
    solar_elevation_angle latitude 6 = 0 ∧
      solar_elevation_angle latitude hour ≤ solar_elevation_angle latitude 12 ∧
      solar_elevation_angle 30 12 = 60 := by
  refine ⟨solar_elevation_angle_at_six latitude, ?_, ?_⟩
  · rw [solar_elevation_angle_at_noon latitude h]
    exact solar_elevation_angle_le latitude hour h
  · rw [solar_elevation_angle_at_noon 30
      (by rw [abs_of_nonneg (by norm_num : (0:ℝ) ≤ 30)]; norm_num),
      abs_of_nonneg (by norm_num : (0:ℝ) ≤ 30)]
    norm_num

/-- Witness for C2 at latitude 30, hour 7. -/
theorem C2_witness :
    solar_elevation_angle 30 6 = 0 ∧
      solar_elevation_angle 30 7 ≤ solar_elevation_angle 30 12 ∧
      solar_elevation_angle 30 12 = 60 :=
  C2_amended 30 7 (by rw [abs_of_nonneg (by norm_num : (0:ℝ) ≤ 30)]; norm_num)

/-- C3 counterexample: at latitude 30.7 the reported `default_tilt` is 30
(truncation `int(abs(latitude))`), while `round(|latitude|)` would be 31. -/
theorem C3_counterexample :
    (get_optimization_result none 800 (307/10) 12 25 50 2 38 8 365 0
        60).default_tilt = 30 ∧
      (30:ℤ) ≠ round ((307:ℝ)/10) := by
  constructor
  · rw [get_optimization_result_default_tilt,
      abs_of_nonneg (by norm_num : (0:ℝ) ≤ 307/10)]
    norm_num
  · rw [round_eq]
    norm_num

/-- C3 amended: for every input, `get_optimization_result` computes the
baseline tilt as `default_tilt = ⌊|latitude|⌋` (Python `int(abs(latitude))`,
truncation), not `round(|latitude|)`. -/
theorem C3_amended (m : RfModel) (g lat hr te hu ws vo cu dsi : ℝ) (a b : ℤ) :
    (get_optimization_result m g lat hr te hu ws vo cu dsi a b).default_tilt =
      ⌊|lat|⌋ := rfl

/-- C6: when the scorer is unavailable (`rf_model = none`) or scoring fails,
`predict_loss` returns exactly 0.15 without propagating the error, and with
the scorer unavailable `get_optimization_result` reports
`efficiency_loss = 15` percent for every input. -/
theorem C6_loss_fallback (fv : List ℝ) (model : List ℝ → Except Unit ℝ)
    (e : Unit) (hfail : model fv = Except.error e)
    (g lat hr te hu ws vo cu dsi : ℝ) (a b : ℤ) :
    predict_loss none fv = 0.15 ∧
      predict_loss (some model) fv = 0.15 ∧
      (get_optimization_result none g lat hr te hu ws vo cu dsi
        a b).efficiency_loss = 15 := by
  refine ⟨predict_loss_none fv, predict_loss_error model fv e hfail, ?_⟩
  rw [get_optimization_result_efficiency_loss, find_best_tilt_loss,
    predict_loss_none]
  have h1 : min (0.15:ℝ) 0.8 = 0.15 := by norm_num
  have h2 : (0.15:ℝ) * 100 = 15 := by norm_num
  rw [h1, h2]
  unfold round2 pyRoundInt
  norm_num [round_eq]

/-- Witness for C6 with an always-failing scorer and concrete inputs. -/
theorem C6_witness :
    predict_loss none [] = 0.15 ∧
      predict_loss (some (fun _ => Except.error ())) [] = 0.15 ∧
      (get_optimization_result none 800 30 12 25 50 2 38 8 365
        0 60).efficiency_loss = 15 :=
  C6_loss_fallback [] (fun _ => Except.error ()) () rfl 800 30 12 25 50 2 38 8
    365 0 60

/-- C7: when the default tilt `⌊|latitude|⌋` falls outside
`[tilt_min, tilt_max]` it is not found among the sweep candidates and
`default_energy` falls back to `best_energy * 0.9`; and the improvement is
`(best_energy - default_energy) / default_energy * 100` when
`default_energy > 0` and `0` when `default_energy ≤ 0`. -/
theorem C7_default_energy_fallback (m : RfModel) (g lat hr : ℝ) (fv : List ℝ)
    (a b : ℤ) (h : ⌊|lat|⌋ < a ∨ b < ⌊|lat|⌋) :
    defaultEnergy (find_best_tilt m g lat hr fv a b).all_results ⌊|lat|⌋
        (find_best_tilt m g lat hr fv a b).best_energy =
      (find_best_tilt m g lat hr fv a b).best_energy * 0.9 ∧
      (∀ be de : ℝ, 0 < de → improvementOf be de = (be - de) / de * 100) ∧
      (∀ be de : ℝ, de ≤ 0 → improvementOf be de = 0) := by
  refine ⟨?_, ?_, ?_⟩
  · have hfind : (find_best_tilt m g lat hr fv a b).all_results.find?
        (fun r => r.tilt == ⌊|lat|⌋) = none := by
      rw [find_best_tilt_all_results, List.find?_eq_none]
      intro x hx
      rw [List.mem_map] at hx
      obtain ⟨t, ht, rfl⟩ := hx
      rw [mem_tiltRange] at ht
      simp only [beq_iff_eq]
      omega
    unfold defaultEnergy
    rw [hfind]
  · intro be de hde
    unfold improvementOf
    rw [if_pos hde]
  · intro be de hde
    unfold improvementOf
    rw [if_neg (not_lt.mpr hde)]

/-- Witness for C7 at latitude 100 (default tilt 100, outside [0, 60]). -/
theorem C7_witness :
    defaultEnergy (find_best_tilt none 800 100 12 [] 0 60).all_results
        ⌊|(100:ℝ)|⌋ (find_best_tilt none 800 100 12 [] 0 60).best_energy =
      (find_best_tilt none 800 100 12 [] 0 60).best_energy * 0.9 ∧
      (∀ be de : ℝ, 0 < de → improvementOf be de = (be - de) / de * 100) ∧
      (∀ be de : ℝ, de ≤ 0 → improvementOf be de = 0) :=
  C7_default_energy_fallback none 800 100 12 [] 0 60
    (Or.inr (by rw [abs_of_nonneg (by norm_num : (0:ℝ) ≤ 100)]; norm_num))

/-- C10: when `tilt_min > tilt_max` the sweep loop never runs, so
`find_best_tilt` returns `best_tilt = None`, `best_energy = -1` and an empty
candidate list, and `get_optimization_result` then reports
`optimal_tilt = None` and `estimated_energy = -1`. -/
theorem C10_empty_sweep (m : RfModel) (g lat hr te hu ws vo cu dsi : ℝ)
    (fv : List ℝ) (a b : ℤ) (h : b < a) :
    (find_best_tilt m g lat hr fv a b).best_tilt = none ∧
      (find_best_tilt m g lat hr fv a b).best_energy = -1 ∧
      (find_best_tilt m g lat hr fv a b).all_results = [] ∧
      (get_optimization_result m g lat hr te hu ws vo cu dsi
        a b).optimal_tilt = none ∧
      (get_optimization_result m g lat hr te hu ws vo cu dsi
        a b).estimated_energy = -1 := by
  have hnil := tiltRange_eq_nil a b h
  refine ⟨?_, ?_, ?_, ?_, ?_⟩
  · rw [find_best_tilt_best_tilt, hnil]
    rfl
  · rw [find_best_tilt_best_energy, hnil]
    rfl
  · rw [find_best_tilt_all_results, hnil]
    rfl
  · rw [get_optimization_result_optimal_tilt, find_best_tilt_best_tilt, hnil]
    rfl
  · rw [get_optimization_result_estimated_energy, find_best_tilt_best_energy,
      hnil]
    have hfold : (List.foldl
        (sweepStep g (solar_elevation_angle lat hr)
          (min (predict_loss m [te, hu, ws, g, vo, cu, dsi]) 0.8))
        (⟨none, -1, []⟩ : SweepState) []).best_energy = -1 := rfl
    rw [hfold]
    unfold round2 pyRoundInt
    norm_num [round_eq]

/-- Witness for C10 with `tilt_min = 5 > tilt_max = 3`. -/
theorem C10_witness :
    (find_best_tilt none 800 30 12 [] 5 3).best_tilt = none ∧
      (find_best_tilt none 800 30 12 [] 5 3).best_energy = -1 ∧
      (find_best_tilt none 800 30 12 [] 5 3).all_results = [] ∧
      (get_optimization_result none 800 30 12 25 50 2 38 8 365
        5 3).optimal_tilt = none ∧
      (get_optimization_result none 800 30 12 25 50 2 38 8 365
        5 3).estimated_energy = -1 :=
  C10_empty_sweep none 800 30 12 25 50 2 38 8 365 [] 5 3 (by norm_num)

/-- C8: for `tilt_min ≤ tilt_max` the candidate list has exactly
`tilt_max - tilt_min + 1` entries, one per integer tilt in ascending order,
and for the default range 0..60 the down-sampled `tilt_curve` (every 5th
candidate starting at the first) has 13 entries out of 61. -/
theorem C8_candidate_count (m : RfModel) (g lat hr te hu ws vo cu dsi : ℝ)
    (fv : List ℝ) (a b : ℤ) (hab : a ≤ b) :
    ((find_best_tilt m g lat hr fv a b).all_results.length : ℤ) = b - a + 1 ∧
      (find_best_tilt m g lat hr fv a b).all_results.map Candidate.tilt =
        tiltRange a b ∧
      List.Pairwise (fun c d => c.tilt < d.tilt)
        (find_best_tilt m g lat hr fv a b).all_results ∧
      (get_optimization_result m g lat hr te hu ws vo cu dsi 0 60).tilt_curve =
        everyFifth
          (find_best_tilt m g lat hr [te, hu, ws, g, vo, cu, dsi] 0
            60).all_results ∧
      (get_optimization_result m g lat hr te hu ws vo cu dsi 0
        60).tilt_curve.length = 13 := by
  refine ⟨?_, ?_, ?_, get_optimization_result_tilt_curve m g lat hr te hu ws
    vo cu dsi 0 60, ?_⟩
  · rw [find_best_tilt_all_results, List.length_map, tiltRange_length]
    omega
  · rw [find_best_tilt_all_results, List.map_map]
    simp [Function.comp_def]
  · rw [find_best_tilt_all_results, List.pairwise_map]
    unfold tiltRange
    rw [List.pairwise_map]
    refine (List.sorted_lt_range (b + 1 - a).toNat).imp ?_
    intro x y hxy
    show a + (x:ℤ) < a + (y:ℤ)
    omega
  · rw [get_optimization_result_tilt_curve, everyFifth_length,
      find_best_tilt_all_results, List.length_map, tiltRange_length]
    decide

/-- Witness for C8 at the default range 0..60. -/
theorem C8_witness :
    ((find_best_tilt none 800 30 12 [] 0 60).all_results.length : ℤ) =
        60 - 0 + 1 ∧
      (find_best_tilt none 800 30 12 [] 0 60).all_results.map Candidate.tilt =
        tiltRange 0 60 ∧
      List.Pairwise (fun c d => c.tilt < d.tilt)
        (find_best_tilt none 800 30 12 [] 0 60).all_results ∧
      (get_optimization_result none 800 30 12 25 50 2 38 8 365 0 60).tilt_curve =
        everyFifth
          (find_best_tilt none 800 30 12 [25, 50, 2, 800, 38, 8, 365] 0
            60).all_results ∧
      (get_optimization_result none 800 30 12 25 50 2 38 8 365 0
        60).tilt_curve.length = 13 :=
  C8_candidate_count none 800 30 12 25 50 2 38 8 365 [] 0 60 (by norm_num)

/-- C1 counterexample: with the scorer unavailable, `ghi = 1.004`,
latitude 30, hour 12 and the one-tilt range [60, 60], the single stored
candidate has (rounded) `net_energy = 0.85`, while the returned `best_energy`
is the unrounded `0.8534`; so `best_energy` differs from the maximum of the
`net_energy` values stored in the returned candidate list. -/
theorem C1_counterexample :
    (find_best_tilt none (251/250) 30 12 [] 60 60).all_results.map
        Candidate.net_energy = [17/20] ∧
      (find_best_tilt none (251/250) 30 12 [] 60 60).best_energy =
        4267/5000 ∧
      ((4267:ℝ)/5000) ≠ 17/20 := by
  have h30 : |(30:ℝ)| ≤ 90 := by
    rw [abs_of_nonneg (by norm_num : (0:ℝ) ≤ 30)]
    norm_num
  have hse : solar_elevation_angle 30 12 = 60 := by
    rw [solar_elevation_angle_at_noon 30 h30,
      abs_of_nonneg (by norm_num : (0:ℝ) ≤ 30)]
    norm_num
  have heff : effective_irradiance (251/250) ((60:ℤ) : ℝ) 60 = 251/250 := by
    have hc : ((60:ℤ) : ℝ) = 60 := by norm_num
    rw [effective_irradiance_def, hc, sub_self, abs_zero, zero_mul,
      Real.cos_zero, mul_one]
    exact max_eq_left (by norm_num)
  have hnea : net_energy_at none (251/250) 30 12 [] 60 = 4267/5000 := by
    unfold net_energy_at
    rw [hse, heff, predict_loss_none]
    norm_num
  refine ⟨?_, ?_, by norm_num⟩
  · rw [find_best_tilt_all_results, tiltRange_self]
    simp only [List.map_cons, List.map_nil]
    rw [hnea]
    norm_num [round2, pyRoundInt, round_eq]
  · rw [find_best_tilt_best_energy, tiltRange_self]
    simp only [List.foldl_cons, List.foldl_nil, sweepStep]
    rw [hse, heff, predict_loss_none]
    split
    · norm_num
    · next hcon =>
      exfalso
      apply hcon
      norm_num

/-- C1 amended: `best_energy` equals the maximum of the exact (pre-rounding)
net energies over the sweep (the stored candidates hold those values rounded
to 2 decimals, so `best_energy` can differ from the stored maximum), and
`best_tilt` is the smallest tilt attaining that exact maximum (first-wins
tie-break under the strict `>` update). -/
theorem C1_best_is_max_of_exact (m : RfModel) (g lat hr : ℝ) (fv : List ℝ)
    (a b : ℤ) (hab : a ≤ b) :
    ∃ t : ℤ, (find_best_tilt m g lat hr fv a b).best_tilt = some t ∧
      a ≤ t ∧ t ≤ b ∧
      (find_best_tilt m g lat hr fv a b).best_energy =
        net_energy_at m g lat hr fv t ∧
      (∀ u : ℤ, a ≤ u → u ≤ b →
        net_energy_at m g lat hr fv u ≤ net_energy_at m g lat hr fv t) ∧
      (∀ u : ℤ, a ≤ u → u < t →
        net_energy_at m g lat hr fv u < net_energy_at m g lat hr fv t) ∧
      (∀ c ∈ (find_best_tilt m g lat hr fv a b).all_results,
        c.net_energy = round2 (net_energy_at m g lat hr fv c.tilt)) := by
  have hlo : min (predict_loss m fv) 0.8 ≤ 1 :=
    le_trans (min_le_right _ _) (by norm_num)
  obtain ⟨t, hta, htb, hbt, hbe, hmax, hfirst⟩ :=
    sweep_best_spec g (solar_elevation_angle lat hr)
      (min (predict_loss m fv) 0.8) hlo a b hab
  refine ⟨t, ?_, hta, htb, ?_, ?_, ?_, ?_⟩
  · rw [find_best_tilt_best_tilt]
    exact hbt
  · rw [find_best_tilt_best_energy]
    exact hbe
  · intro u h1 h2
    exact hmax u h1 h2
  · intro u h1 h2
    exact hfirst u h1 h2
  · intro c hc
    rw [find_best_tilt_all_results, List.mem_map] at hc
    obtain ⟨u, hu, rfl⟩ := hc
    rfl

/-- Witness for C1 at the default range 0..60. -/
theorem C1_witness :
    ∃ t : ℤ, (find_best_tilt none 800 30 12 [] 0 60).best_tilt = some t ∧
      0 ≤ t ∧ t ≤ 60 ∧
      (find_best_tilt none 800 30 12 [] 0 60).best_energy =
        net_energy_at none 800 30 12 [] t ∧
      (∀ u : ℤ, 0 ≤ u → u ≤ 60 →
        net_energy_at none 800 30 12 [] u ≤ net_energy_at none 800 30 12 [] t) ∧
      (∀ u : ℤ, 0 ≤ u → u < t →
        net_energy_at none 800 30 12 [] u < net_energy_at none 800 30 12 [] t) ∧
      (∀ c ∈ (find_best_tilt none 800 30 12 [] 0 60).all_results,
        c.net_energy = round2 (net_energy_at none 800 30 12 [] c.tilt)) :=
  C1_best_is_max_of_exact none 800 30 12 [] 0 60 (by norm_num)

end TiltOptimizer
